import Mathlib

/-!
Verification of the TireTrade Pro backend tracking core (`main.py`).

The three tracking operations (`track_by_booking`, `poll_tracking_request`,
`search_shipments_by_bol`) are shallowly embedded.  Upstream HTTP responses
are modelled by an oracle (`Net`) whose calls either return a parsed JSON
body with a status code or raise an exception (`Exc`: a timeout or any
other transport/Python exception).  Python `dict.get` on a non-dict raises
`AttributeError`, which the source's `except Exception` handlers turn into
an HTTP 502; this is modelled by running each handler body in `Except Exc`.
-/

namespace TireTrade

/-- Parsed JSON values, as produced by `resp.json()`. -/
inductive Json where
  | null : Json
  | bool (b : Bool) : Json
  | num (n : Int) : Json
  | str (s : String) : Json
  | arr (xs : List Json) : Json
  | obj (fields : List (String × Json)) : Json

/-- Python truthiness of a parsed JSON value (`if x:`). -/
def Json.truthy : Json → Bool
  | .null => false
  | .bool b => b
  | .num n => n != 0
  | .str s => s != ""
  | .arr xs => !xs.isEmpty
  | .obj fs => !fs.isEmpty

/-- Exceptions that can escape an upstream call or a Python expression inside
the handler's `try` block: `httpx.TimeoutException` (with its message, used by
`str(e)`), or any other exception with its message. -/
inductive Exc where
  | timeout (msg : String) : Exc
  | pyErr (msg : String) : Exc

/-- Python `str(e)` of a caught exception. -/
def Exc.toMsg : Exc → String
  | .timeout m => m
  | .pyErr m => m

/-- Python `d.get(key, default)`: on a dict, the value when present, else the
default; on any non-dict value it raises `AttributeError`. -/
def Json.getD (j : Json) (key : String) (d : Json) : Except Exc Json :=
  match j with
  | .obj fs => .ok ((fs.lookup key).getD d)
  | _ => .error (.pyErr "AttributeError: object has no attribute get")

/-- Python `d.get(key)` — default `None`. -/
def Json.get (j : Json) (key : String) : Except Exc Json :=
  j.getD key .null

/-- Python `for x in j`: lists iterate elements, dicts iterate keys, strings
iterate one-character strings, everything else raises `TypeError`. -/
def pyIter : Json → Except Exc (List Json)
  | .arr xs => .ok xs
  | .obj fs => .ok (fs.map (fun p => Json.str p.1))
  | .str s => .ok (s.data.map (fun c => Json.str (String.singleton c)))
  | _ => .error (.pyErr "TypeError: object is not iterable")

/-- An upstream HTTP response: status code and (already parsed) JSON body. -/
structure HttpResp where
  status : Nat
  body : Json

/-- The upstream Terminal49 API, one oracle function per endpoint consumed.
Shipment and container ids are the JSON values extracted from relationship
data (they appear in the request URL). -/
structure Net where
  postTrackingRequests : Json → Except Exc HttpResp
  getTrackingRequest : String → Except Exc HttpResp
  getShipment : Json → Except Exc HttpResp
  getContainer : Json → Except Exc HttpResp
  searchShipments : String → Except Exc HttpResp

/-- Result of a FastAPI handler: either a raised `HTTPException` with status
code and detail, or a normal JSON return. -/
inductive Resp where
  | httpError (code : Nat) (detail : String) : Resp
  | ok (body : Json) : Resp

/-- Drop whitespace from both ends of a character list. -/
def stripChars (l : List Char) : List Char :=
  ((l.dropWhile Char.isWhitespace).reverse.dropWhile Char.isWhitespace).reverse

/-- Python `str.strip()` (no arguments): remove leading and trailing
whitespace.  Defined structurally over the character list so it computes. -/
def pyStrip (s : String) : String := ⟨stripChars s.data⟩

/-- `SCAC_MAP` from `main.py` (insertion order preserved). -/
def SCAC_MAP : List (String × String) :=
  [("Maersk", "MAEU"), ("MSC", "MSCU"), ("CMA CGM", "CMDU"),
   ("Hapag-Lloyd", "HLCU"), ("COSCO", "COSU"), ("ONE", "ONEY"),
   ("Evergreen", "EGLV"), ("HMM", "HDMU"), ("ZIM", "ZIMU"), ("Yang Ming", "YMLU")]

/-- Body of the `try` block of `track_by_booking` (`main.py` lines 180-194). -/
def trackCore (net : Net) (payload : Json) : Except Exc Json := do
  let resp ← net.postTrackingRequests payload
  let data := resp.body
  if resp.status = 422 then
    pure (Json.obj [("success", .bool true), ("status", .num 422),
      ("duplicate", .bool true), ("data", data),
      ("message", .str "Booking already tracked. Fetching existing shipment data...")])
  else
    pure (Json.obj [
      ("success", .bool (resp.status = 200 || resp.status = 201 || resp.status = 202)),
      ("status", .num resp.status), ("data", data)])

/-- `POST /api/track` (`main.py` lines 152-198). `apiKey` is the value of
`TERMINAL49_API_KEY` (the `os.getenv` default is the placeholder). -/
def track_by_booking (apiKey : String) (net : Net) (bookingRef carrier : String) : Resp :=
  if bookingRef = "" || pyStrip bookingRef = "" then
    .httpError 400 "Booking reference is required"
  else if apiKey = "YOUR_API_KEY_HERE" then
    .httpError 503 "Terminal49 API key not configured. Set TERMINAL49_API_KEY env var on Render."
  else
    let scac := (SCAC_MAP.lookup carrier).getD ""
    if scac = "" then
      .httpError 400 ("Unknown carrier \"" ++ carrier ++ "\". Supported: "
        ++ String.intercalate ", " (SCAC_MAP.map Prod.fst))
    else
      let payload := Json.obj [("data", Json.obj [
        ("type", .str "tracking_request"),
        ("attributes", Json.obj [
          ("request_type", .str "bill_of_lading"),
          ("request_number", .str (pyStrip bookingRef)),
          ("scac", .str scac)])])]
      match trackCore net payload with
      | .ok j => .ok j
      | .error (.timeout _) => .httpError 504 "Terminal49 request timed out"
      | .error (.pyErr m) => .httpError 502 m

/-- The normalized container record built in the poller's container loop
(`main.py` lines 253-271), field accesses in source order. -/
def containerRecordE (c_data c_attrs : Json) : Except Exc Json := do
  let i ← c_data.get "id"
  let number ← c_attrs.getD "number" (.str "")
  let sealNo ← c_attrs.getD "seal_number" (.str "")
  let etype ← c_attrs.getD "equipment_type" (.str "")
  let elen ← c_attrs.getD "equipment_length" (.str "")
  let w ← c_attrs.get "weight_in_lbs"
  let st ← c_attrs.getD "status" (.str "")
  let a1 ← c_attrs.get "pod_arrived_at"
  let a2 ← c_attrs.get "pod_discharged_at"
  let a3 ← c_attrs.get "pod_full_out_at"
  let a4 ← c_attrs.get "pol_loaded_at"
  let a5 ← c_attrs.get "pol_etd_at"
  let a6 ← c_attrs.get "pod_eta_at"
  let a7 ← c_attrs.get "pickup_lfd"
  let a8 ← c_attrs.get "holds_at_pod_terminal"
  let a9 ← c_attrs.get "fees_at_pod_terminal"
  pure (Json.obj [("id", i), ("number", number), ("seal_number", sealNo),
    ("equipment_type", etype), ("equipment_length", elen), ("weight_kg", w),
    ("status", st), ("pod_arrived_at", a1), ("pod_discharged_at", a2),
    ("pod_full_out_at", a3), ("pol_loaded_at", a4), ("pol_etd_at", a5),
    ("pod_eta_at", a6), ("pickup_lfd", a7), ("holds_at_pod_terminal", a8),
    ("fees_at_pod_terminal", a9), ("raw", c_attrs)])

/-- The poller's container loop (`main.py` lines 245-271): containers whose
fetch is not HTTP 200, or whose relationship entry has no truthy id, are
skipped. -/
def fetchContainers (net : Net) : List Json → Except Exc (List Json)
  | [] => pure []
  | cref :: rest => do
    let cid ← cref.get "id"
    if cid.truthy then
      let c_resp ← net.getContainer cid
      if c_resp.status = 200 then
        let c_data ← c_resp.body.getD "data" (.obj [])
        let c_attrs ← c_data.getD "attributes" (.obj [])
        let recrd ← containerRecordE c_data c_attrs
        let rest' ← fetchContainers net rest
        pure (recrd :: rest')
      else
        fetchContainers net rest
    else
      fetchContainers net rest

/-- Body of the `try` block of `poll_tracking_request`
(`main.py` lines 210-300). -/
def pollCore (net : Net) (request_id : String) : Except Exc Json := do
  let resp ← net.getTrackingRequest request_id
  if resp.status ≠ 200 then
    pure (Json.obj [("success", .bool false), ("status", .num resp.status),
      ("data", resp.body)])
  else
    let tr_data := resp.body
    let d1 ← tr_data.getD "data" (.obj [])
    let attrs ← d1.getD "attributes" (.obj [])
    let status ← attrs.getD "status" (.str "unknown")
    if status matches .str "pending" then
      pure (Json.obj [("success", .bool true), ("tracking_status", .str "pending"),
        ("message", .str "Terminal49 is still fetching data. Poll again in 3-5 seconds.")])
    else if status matches .str "failed" then do
      let reason ← attrs.getD "failed_reason" (.str "Unknown error")
      pure (Json.obj [("success", .bool false), ("tracking_status", .str "failed"),
        ("reason", reason)])
    else do
      let d2 ← tr_data.getD "data" (.obj [])
      let rels ← d2.getD "relationships" (.obj [])
      let trobj ← rels.getD "tracked_object" (.obj [])
      let tracked_obj ← trobj.get "data"
      if !tracked_obj.truthy then
        pure (Json.obj [("success", .bool true), ("tracking_status", status),
          ("message", .str "Processed but no shipment linked yet. Try again shortly.")])
      else do
        let tid ← tracked_obj.get "id"
        if !tid.truthy then
          pure (Json.obj [("success", .bool true), ("tracking_status", status),
            ("message", .str "Processed but no shipment linked yet. Try again shortly.")])
        else do
          let ship_resp ← net.getShipment tid
          let shipment ← if ship_resp.status = 200 then
              ship_resp.body.getD "data" (.obj [])
            else
              pure (Json.obj [])
          let r1 ← shipment.getD "relationships" (.obj [])
          let c1 ← r1.getD "containers" (.obj [])
          let crefsJ ← c1.getD "data" (.arr [])
          let crefs ← pyIter crefsJ
          let containers ← fetchContainers net crefs
          let s_attrs ← shipment.getD "attributes" (.obj [])
          let sid ← shipment.get "id"
          let bol ← s_attrs.get "bill_of_lading_number"
          let line ← s_attrs.get "shipping_line_name"
          let scac ← s_attrs.get "shipping_line_scac"
          let vessel ← s_attrs.get "pod_vessel_name"
          let voyage ← s_attrs.get "pod_voyage_number"
          let poln ← s_attrs.get "port_of_lading_name"
          let poll ← s_attrs.get "port_of_lading_locode"
          let podn ← s_attrs.get "port_of_discharge_name"
          let podl ← s_attrs.get "port_of_discharge_locode"
          let dest ← s_attrs.get "destination_name"
          let etd ← s_attrs.get "pol_etd_at"
          let atd ← s_attrs.get "pol_atd_at"
          let eta ← s_attrs.get "pod_eta_at"
          let ata ← s_attrs.get "pod_ata_at"
          let sst ← s_attrs.get "status"
          pure (Json.obj [("success", .bool true), ("tracking_status", .str "succeeded"),
            ("shipment", Json.obj [("id", sid), ("bol_number", bol),
              ("shipping_line", line), ("scac", scac), ("vessel", vessel),
              ("voyage", voyage), ("pol_name", poln), ("pol_locode", poll),
              ("pod_name", podn), ("pod_locode", podl), ("destination", dest),
              ("pol_etd", etd), ("pol_atd", atd), ("pod_eta", eta),
              ("pod_ata", ata), ("status", sst)]),
            ("containers", .arr containers),
            ("containerCount", .num containers.length)])

/-- `GET /api/track/{request_id}` (`main.py` lines 201-305). -/
def poll_tracking_request (apiKey : String) (net : Net) (request_id : String) : Resp :=
  if apiKey = "YOUR_API_KEY_HERE" then
    .httpError 503 "API key not configured"
  else
    match pollCore net request_id with
    | .ok j => .ok j
    | .error (.timeout _) => .httpError 504 "Timeout polling Terminal49"
    | .error (.pyErr m) => .httpError 502 m

/-- The search's per-shipment container loop (`main.py` lines 331-336):
same drop-on-non-200 policy as the poller, raw `data` passthrough. -/
def searchShipContainers (net : Net) : List Json → Except Exc (List Json)
  | [] => pure []
  | cref :: rest => do
    let cid ← cref.get "id"
    if cid.truthy then
      let c_resp ← net.getContainer cid
      if c_resp.status = 200 then
        let cdat ← c_resp.body.getD "data" (.obj [])
        let rest' ← searchShipContainers net rest
        pure (cdat :: rest')
      else
        searchShipContainers net rest
    else
      searchShipContainers net rest

/-- The search's per-shipment result loop (`main.py` lines 328-351). -/
def searchResults (net : Net) : List Json → Except Exc (List Json)
  | [] => pure []
  | ship :: rest => do
    let r1 ← ship.getD "relationships" (.obj [])
    let c1 ← r1.getD "containers" (.obj [])
    let crefsJ ← c1.getD "data" (.arr [])
    let crefs ← pyIter crefsJ
    let containers ← searchShipContainers net crefs
    let s_attrs ← ship.getD "attributes" (.obj [])
    let sid ← ship.get "id"
    let bnum ← s_attrs.get "bill_of_lading_number"
    let vessel ← s_attrs.get "pod_vessel_name"
    let poln ← s_attrs.get "port_of_lading_name"
    let podn ← s_attrs.get "port_of_discharge_name"
    let eta ← s_attrs.get "pod_eta_at"
    let st ← s_attrs.get "status"
    let rest' ← searchResults net rest
    pure (Json.obj [
      ("shipment", Json.obj [("id", sid), ("bol_number", bnum), ("vessel", vessel),
        ("pol_name", poln), ("pod_name", podn), ("pod_eta", eta), ("status", st)]),
      ("containers", .arr containers),
      ("containerCount", .num containers.length)] :: rest')

/-- Body of the `try` block of `search_shipments_by_bol`
(`main.py` lines 317-353). -/
def searchCore (net : Net) (bol : String) : Except Exc Json := do
  let resp ← net.searchShipments (pyStrip bol)
  let data := resp.body
  let shipmentsJ ← data.getD "data" (.arr [])
  let shipments ← pyIter shipmentsJ
  let results ← searchResults net shipments
  pure (Json.obj [("success", .bool true), ("results", .arr results),
    ("totalShipments", .num results.length)])

/-- `GET /api/track/shipments/search` (`main.py` lines 308-355).  Note: the
only handler is `except Exception` — a timeout also lands on 502 here. -/
def search_shipments_by_bol (apiKey : String) (net : Net) (bol : String) : Resp :=
  if apiKey = "YOUR_API_KEY_HERE" then
    .httpError 503 "API key not configured"
  else
    match searchCore net bol with
    | .ok j => .ok j
    | .error e => .httpError 502 e.toMsg

/-! ### Pure spec-side helpers: scenario builders and result extractors -/

/-- Pure lookup-with-default on an association list (what `dict.get(k, d)`
computes once the receiver is known to be a dict). -/
def jlookD (fs : List (String × Json)) (key : String) (d : Json) : Json :=
  (fs.lookup key).getD d

/-- A well-formed tracking-request body with given attributes and
`tracked_object` data. -/
def trBody (attrs : List (String × Json)) (tracked : Json) : Json :=
  Json.obj [("data", Json.obj [
    ("attributes", Json.obj attrs),
    ("relationships", Json.obj [("tracked_object", Json.obj [("data", tracked)])])])]

/-- A well-formed shipment body whose container relationship entries are
`crefs`. -/
def shipBody (sid : String) (sattrs : List (String × Json)) (crefs : List Json) : Json :=
  Json.obj [("data", Json.obj [
    ("id", Json.str sid),
    ("attributes", Json.obj sattrs),
    ("relationships", Json.obj [("containers", Json.obj [("data", Json.arr crefs)])])])]

/-- A well-formed container body with given id and attributes. -/
def contBody (cid : String) (cattrs : List (String × Json)) : Json :=
  Json.obj [("data", Json.obj [("id", Json.str cid), ("attributes", Json.obj cattrs)])]

/-- The record the poller is expected to produce for a container with id
`cid` and upstream attribute set `cattrs` (mirrors `main.py` lines 253-271
on a well-formed body). -/
def expectedRecord (cid : String) (cattrs : List (String × Json)) : Json :=
  Json.obj [
    ("id", Json.str cid),
    ("number", jlookD cattrs "number" (.str "")),
    ("seal_number", jlookD cattrs "seal_number" (.str "")),
    ("equipment_type", jlookD cattrs "equipment_type" (.str "")),
    ("equipment_length", jlookD cattrs "equipment_length" (.str "")),
    ("weight_kg", jlookD cattrs "weight_in_lbs" .null),
    ("status", jlookD cattrs "status" (.str "")),
    ("pod_arrived_at", jlookD cattrs "pod_arrived_at" .null),
    ("pod_discharged_at", jlookD cattrs "pod_discharged_at" .null),
    ("pod_full_out_at", jlookD cattrs "pod_full_out_at" .null),
    ("pol_loaded_at", jlookD cattrs "pol_loaded_at" .null),
    ("pol_etd_at", jlookD cattrs "pol_etd_at" .null),
    ("pod_eta_at", jlookD cattrs "pod_eta_at" .null),
    ("pickup_lfd", jlookD cattrs "pickup_lfd" .null),
    ("holds_at_pod_terminal", jlookD cattrs "holds_at_pod_terminal" .null),
    ("fees_at_pod_terminal", jlookD cattrs "fees_at_pod_terminal" .null),
    ("raw", Json.obj cattrs)]

/-- The shipment summary the poller is expected to produce from a well-formed
shipment body (mirrors `main.py` lines 275-292). -/
def expectedSummary (sid : String) (sattrs : List (String × Json)) : Json :=
  Json.obj [
    ("id", Json.str sid),
    ("bol_number", jlookD sattrs "bill_of_lading_number" .null),
    ("shipping_line", jlookD sattrs "shipping_line_name" .null),
    ("scac", jlookD sattrs "shipping_line_scac" .null),
    ("vessel", jlookD sattrs "pod_vessel_name" .null),
    ("voyage", jlookD sattrs "pod_voyage_number" .null),
    ("pol_name", jlookD sattrs "port_of_lading_name" .null),
    ("pol_locode", jlookD sattrs "port_of_lading_locode" .null),
    ("pod_name", jlookD sattrs "port_of_discharge_name" .null),
    ("pod_locode", jlookD sattrs "port_of_discharge_locode" .null),
    ("destination", jlookD sattrs "destination_name" .null),
    ("pol_etd", jlookD sattrs "pol_etd_at" .null),
    ("pol_atd", jlookD sattrs "pol_atd_at" .null),
    ("pod_eta", jlookD sattrs "pod_eta_at" .null),
    ("pod_ata", jlookD sattrs "pod_ata_at" .null),
    ("status", jlookD sattrs "status" .null)]

/-- The poller's success envelope (`main.py` lines 294-300). -/
def pollSuccess (summary : Json) (containers : List Json) : Json :=
  Json.obj [("success", .bool true), ("tracking_status", .str "succeeded"),
    ("shipment", summary), ("containers", .arr containers),
    ("containerCount", .num containers.length)]

/-- Pure field extraction on a JSON object (extractor for theorem
statements). -/
def Json.lookup? : Json → String → Option Json
  | .obj fs, key => fs.lookup key
  | _, _ => none

/-- The list of container records of a handler result (extractor for theorem
statements). -/
def respContainers : Resp → List Json
  | .ok b =>
    match b.lookup? "containers" with
    | some (.arr xs) => xs
    | _ => []
  | .httpError _ _ => []

/-! ### Reduction lemmas -/

theorem bind_ok {α β : Type} (a : α) (f : α → Except Exc β) :
    (Except.ok a >>= f) = f a := rfl

theorem pure_ok {α : Type} (a : α) : (pure a : Except Exc α) = Except.ok a := rfl

theorem getD_obj (fs : List (String × Json)) (key : String) (d : Json) :
    Json.getD (Json.obj fs) key d = .ok (jlookD fs key d) := rfl

theorem get_obj (fs : List (String × Json)) (key : String) :
    Json.get (Json.obj fs) key = .ok (jlookD fs key .null) := rfl

/-- Characterization of the poller's container loop on well-formed
relationship entries `[("id", cid)]`: entries with a blank id are skipped
without a fetch, fetched containers are kept exactly when the fetch returns
HTTP 200, in order. -/
theorem fetchContainers_spec (net : Net) (gs : String → Nat)
    (ga : String → List (String × Json)) :
    ∀ cids : List String,
    (∀ c ∈ cids, c ≠ "" → net.getContainer (Json.str c) = .ok ⟨gs c, contBody c (ga c)⟩) →
    fetchContainers net (cids.map (fun c => Json.obj [("id", Json.str c)])) =
      .ok ((cids.filter (fun c => !(c == "") && (gs c == 200))).map
        (fun c => expectedRecord c (ga c)))
  | [], _ => rfl
  | c :: rest, h => by
    have ih := fetchContainers_spec net gs ga rest (fun x hx => h x (List.mem_cons_of_mem _ hx))
    by_cases hc : c = ""
    · subst hc
      simp [fetchContainers, Json.get, Json.getD, Json.truthy, jlookD, ih, List.filter_cons,
        bind_ok, pure_ok]
    · have hnet := h c (List.mem_cons_self c rest) hc
      have hl : List.lookup "attributes" [("id", Json.str c), ("attributes", Json.obj (ga c))]
          = some (Json.obj (ga c)) := rfl
      by_cases hg : gs c = 200
      · simp [fetchContainers, Json.get, Json.getD, Json.truthy, jlookD, hc, hnet, hg, ih,
          List.filter_cons, containerRecordE, contBody, expectedRecord, bind_ok, pure_ok, hl]
      · simp [fetchContainers, Json.get, Json.getD, Json.truthy, jlookD, hc, hnet, hg, ih,
          List.filter_cons, bind_ok, pure_ok]

/-- Full characterization of a poll in the resolved state: tracking request
read succeeds with status `succeeded` and a linked shipment `sid`; the
shipment read succeeds and lists container relationship entries `cids`; each
container fetch returns status `gs c` with attributes `ga c`.  The result
keeps exactly the containers whose id is present (non-blank) and whose fetch
returned HTTP 200. -/
theorem poll_scenario (apiKey rid sid : String) (net : Net)
    (sattrs : List (String × Json)) (cids : List String)
    (gs : String → Nat) (ga : String → List (String × Json))
    (hkey : apiKey ≠ "YOUR_API_KEY_HERE") (hsid : sid ≠ "")
    (htr : net.getTrackingRequest rid =
      .ok ⟨200, trBody [("status", .str "succeeded")] (Json.obj [("id", Json.str sid)])⟩)
    (hship : net.getShipment (Json.str sid) =
      .ok ⟨200, shipBody sid sattrs (cids.map (fun c => Json.obj [("id", Json.str c)]))⟩)
    (hc : ∀ c ∈ cids, c ≠ "" → net.getContainer (Json.str c) = .ok ⟨gs c, contBody c (ga c)⟩) :
    poll_tracking_request apiKey net rid =
      .ok (pollSuccess (expectedSummary sid sattrs)
        ((cids.filter (fun c => !(c == "") && (gs c == 200))).map
          (fun c => expectedRecord c (ga c)))) := by
  have hfc := fetchContainers_spec net gs ga cids hc
  unfold poll_tracking_request
  rw [if_neg hkey]
  unfold pollCore
  rw [htr, bind_ok]
  simp [trBody, shipBody, Json.get, Json.getD, Json.truthy, jlookD, bind_ok, pure_ok,
    hship, hfc, pollSuccess, expectedSummary, expectedRecord, pyIter, hsid, List.lookup]

/-! ### Witness fixtures: concrete upstream oracles -/

/-- An oracle on which every call raises; used where an endpoint must not be
reached. -/
def errNet : Net where
  postTrackingRequests := fun _ => .error (.pyErr "unreachable")
  getTrackingRequest := fun _ => .error (.pyErr "unreachable")
  getShipment := fun _ => .error (.pyErr "unreachable")
  getContainer := fun _ => .error (.pyErr "unreachable")
  searchShipments := fun _ => .error (.pyErr "unreachable")

/-- A raw upstream body used in submission witnesses. -/
def dupBody : Json := Json.obj [("errors", Json.arr [Json.str "duplicate"])]

/-- Oracle whose create-tracking-request call returns HTTP 422. -/
def netDup : Net := { errNet with postTrackingRequests := fun _ => .ok ⟨422, dupBody⟩ }

/-- Oracle whose create-tracking-request call returns HTTP 500. -/
def netFail : Net := { errNet with postTrackingRequests := fun _ => .ok ⟨500, dupBody⟩ }

/-- A tracking-request body whose status is `pending`. -/
def pendBody : Json :=
  Json.obj [("data", Json.obj [("attributes", Json.obj [("status", Json.str "pending")])])]

/-- Oracle whose tracking-request read reports status `pending`. -/
def netPend : Net := { errNet with getTrackingRequest := fun _ => .ok ⟨200, pendBody⟩ }

/-- A search body listing one shipment `s1` with one container entry `c1`. -/
def searchBody1 : Json :=
  Json.obj [("data", Json.arr
    [Json.obj [("id", Json.str "s1"),
               ("attributes", Json.obj []),
               ("relationships", Json.obj [("containers",
                  Json.obj [("data", Json.arr [Json.obj [("id", Json.str "c1")]])])])]])]

/-- Oracle whose search returns one shipment with one container, and whose
container fetch times out. -/
def netSearchTimeout : Net :=
  { errNet with
    searchShipments := fun _ => .ok ⟨200, searchBody1⟩
    getContainer := fun _ => .error (.timeout "Terminal49 timed out") }

/-! ### Claims -/

/-- Claim C5: for every booking reference that is empty or whitespace-only,
submission fails with HTTP 400 (InvalidInput) for any carrier, any key and
any upstream oracle — so no network call can matter. -/
theorem claim_C5_blank_booking_rejected (apiKey : String) (net : Net)
    (bookingRef carrier : String) (href : pyStrip bookingRef = "") :
    track_by_booking apiKey net bookingRef carrier =
      .httpError 400 "Booking reference is required" := by
  unfold track_by_booking
  simp [href]

/-- Witness for C5 at a whitespace-only reference. -/
theorem claim_C5_witness :
    track_by_booking "YOUR_API_KEY_HERE" errNet " \t " "Maersk" =
      .httpError 400 "Booking reference is required" :=
  claim_C5_blank_booking_rejected "YOUR_API_KEY_HERE" errNet " \t " "Maersk" (by decide)

/-- Claim C3: with the placeholder credential, each of the three tracking
operations returns HTTP 503 (NotConfigured) with the oracle fully arbitrary,
i.e. before any network call; submission additionally requires the booking
reference to pass the blank-input check that precedes the credential check. -/
theorem claim_C3_not_configured (net : Net)
    (request_id bol bookingRef carrier : String) (href : pyStrip bookingRef ≠ "") :
    track_by_booking "YOUR_API_KEY_HERE" net bookingRef carrier =
      .httpError 503
        "Terminal49 API key not configured. Set TERMINAL49_API_KEY env var on Render." ∧
    poll_tracking_request "YOUR_API_KEY_HERE" net request_id =
      .httpError 503 "API key not configured" ∧
    search_shipments_by_bol "YOUR_API_KEY_HERE" net bol =
      .httpError 503 "API key not configured" := by
  refine ⟨?_, rfl, rfl⟩
  have h0 : bookingRef ≠ "" := fun h => href (by rw [h]; rfl)
  unfold track_by_booking
  simp [h0, href]

/-- Witness for C3 on the all-raising oracle. -/
theorem claim_C3_witness :
    track_by_booking "YOUR_API_KEY_HERE" errNet "BK1" "Maersk" =
      .httpError 503
        "Terminal49 API key not configured. Set TERMINAL49_API_KEY env var on Render." ∧
    poll_tracking_request "YOUR_API_KEY_HERE" errNet "r1" =
      .httpError 503 "API key not configured" ∧
    search_shipments_by_bol "YOUR_API_KEY_HERE" errNet "b1" =
      .httpError 503 "API key not configured" :=
  claim_C3_not_configured errNet "r1" "b1" "BK1" "Maersk" (by decide)

/-- Claim C4: the SCAC mapping holds exactly the ten documented display
names, and any carrier outside that set (lookup is exact string match, so
also any case variant) is rejected with HTTP 400 and a message enumerating
all supported names. -/
theorem claim_C4_unknown_carrier (apiKey : String) (net : Net)
    (bookingRef carrier : String)
    (hkey : apiKey ≠ "YOUR_API_KEY_HERE") (href : pyStrip bookingRef ≠ "")
    (hcar : carrier ∉ ["Maersk", "MSC", "CMA CGM", "Hapag-Lloyd", "COSCO", "ONE",
      "Evergreen", "HMM", "ZIM", "Yang Ming"]) :
    SCAC_MAP.map Prod.fst =
      ["Maersk", "MSC", "CMA CGM", "Hapag-Lloyd", "COSCO", "ONE",
       "Evergreen", "HMM", "ZIM", "Yang Ming"] ∧
    track_by_booking apiKey net bookingRef carrier =
      .httpError 400 ("Unknown carrier \"" ++ carrier ++ "\". Supported: "
        ++ "Maersk, MSC, CMA CGM, Hapag-Lloyd, COSCO, ONE, Evergreen, HMM, ZIM, Yang Ming") := by
  refine ⟨rfl, ?_⟩
  have h0 : bookingRef ≠ "" := fun h => href (by rw [h]; rfl)
  simp only [List.mem_cons, List.not_mem_nil, or_false, not_or] at hcar
  obtain ⟨h1, h2, h3, h4, h5, h6, h7, h8, h9, h10⟩ := hcar
  have hlk : SCAC_MAP.lookup carrier = none := by
    simp [SCAC_MAP, List.lookup, beq_eq_false_iff_ne.mpr h1, beq_eq_false_iff_ne.mpr h2,
      beq_eq_false_iff_ne.mpr h3, beq_eq_false_iff_ne.mpr h4, beq_eq_false_iff_ne.mpr h5,
      beq_eq_false_iff_ne.mpr h6, beq_eq_false_iff_ne.mpr h7, beq_eq_false_iff_ne.mpr h8,
      beq_eq_false_iff_ne.mpr h9, beq_eq_false_iff_ne.mpr h10]
  have hint : String.intercalate ", " (SCAC_MAP.map Prod.fst) =
      "Maersk, MSC, CMA CGM, Hapag-Lloyd, COSCO, ONE, Evergreen, HMM, ZIM, Yang Ming" := rfl
  unfold track_by_booking
  simp [h0, href, hkey, hlk, hint]

/-- Witness for C4 at a lowercase variant of a supported name. -/
theorem claim_C4_witness :
    SCAC_MAP.map Prod.fst =
      ["Maersk", "MSC", "CMA CGM", "Hapag-Lloyd", "COSCO", "ONE",
       "Evergreen", "HMM", "ZIM", "Yang Ming"] ∧
    track_by_booking "k1" errNet "BK1" "maersk" =
      .httpError 400 ("Unknown carrier \"" ++ "maersk" ++ "\". Supported: "
        ++ "Maersk, MSC, CMA CGM, Hapag-Lloyd, COSCO, ONE, Evergreen, HMM, ZIM, Yang Ming") :=
  claim_C4_unknown_carrier "k1" errNet "BK1" "maersk" (by decide) (by decide) (by decide)

/-- Claim C2: the submitter's three-way branch on the upstream status of the
create-tracking-request call: 422 is reported as a duplicate success with the
raw body and a human-readable message; 200/201/202 as a success with the raw
body; anything else as a normal return with `success=false` still carrying
the status and raw body. -/
theorem claim_C2_submit_status_handling (apiKey : String) (net : Net)
    (bookingRef carrier : String) (scode : Nat) (body : Json)
    (hkey : apiKey ≠ "YOUR_API_KEY_HERE") (href : pyStrip bookingRef ≠ "")
    (hcar : (SCAC_MAP.lookup carrier).getD "" ≠ "")
    (hpost : ∀ p, net.postTrackingRequests p = .ok ⟨scode, body⟩) :
    (scode = 422 →
      track_by_booking apiKey net bookingRef carrier =
        .ok (Json.obj [("success", .bool true), ("status", .num 422),
          ("duplicate", .bool true), ("data", body),
          ("message", .str "Booking already tracked. Fetching existing shipment data...")])) ∧
    (scode = 200 ∨ scode = 201 ∨ scode = 202 →
      track_by_booking apiKey net bookingRef carrier =
        .ok (Json.obj [("success", .bool true), ("status", .num scode), ("data", body)])) ∧
    (scode ≠ 422 → ¬(scode = 200 ∨ scode = 201 ∨ scode = 202) →
      track_by_booking apiKey net bookingRef carrier =
        .ok (Json.obj [("success", .bool false), ("status", .num scode), ("data", body)])) := by
  have h0 : bookingRef ≠ "" := fun h => href (by rw [h]; rfl)
  refine ⟨?_, ?_, ?_⟩
  · intro h422
    subst h422
    unfold track_by_booking trackCore
    simp [h0, href, hkey, hcar, hpost, bind_ok, pure_ok]
  · intro hok
    have h422 : ¬ scode = 422 := by rcases hok with h | h | h <;> omega
    unfold track_by_booking trackCore
    simp only [hpost, bind_ok]
    rcases hok with h | h | h <;> subst h <;> simp [h0, href, hkey, hcar, pure_ok]
  · intro h422 hnot
    push_neg at hnot
    obtain ⟨h1, h2, h3⟩ := hnot
    unfold track_by_booking trackCore
    simp [h0, href, hkey, hcar, hpost, bind_ok, pure_ok, h422, h1, h2, h3]

/-- Witness for C2 in the 422 (duplicate) branch. -/
theorem claim_C2_witness :
    track_by_booking "k1" netDup "BK1" "Maersk" =
      .ok (Json.obj [("success", .bool true), ("status", .num 422),
        ("duplicate", .bool true), ("data", dupBody),
        ("message", .str "Booking already tracked. Fetching existing shipment data...")]) :=
  (claim_C2_submit_status_handling "k1" netDup "BK1" "Maersk" 422 dupBody
    (by decide) (by decide) (by decide) (fun _ => rfl)).1 rfl

/-- Claim C8: any exception escaping the search pipeline — a timeout
included, since this handler has no dedicated timeout branch — aborts the
whole BOL search with HTTP 502 carrying the exception's message; no result
payload is produced. -/
theorem claim_C8_search_aborts_on_exception (apiKey : String) (net : Net)
    (bol : String) (e : Exc) (hkey : apiKey ≠ "YOUR_API_KEY_HERE")
    (herr : searchCore net bol = .error e) :
    search_shipments_by_bol apiKey net bol = .httpError 502 e.toMsg := by
  unfold search_shipments_by_bol
  rw [if_neg hkey, herr]

/-- Witness for C8: a timeout on a per-container fetch inside the search
loop aborts the whole search with 502. -/
theorem claim_C8_witness :
    search_shipments_by_bol "k1" netSearchTimeout "BOL1" =
      .httpError 502 "Terminal49 timed out" :=
  claim_C8_search_aborts_on_exception "k1" netSearchTimeout "BOL1"
    (.timeout "Terminal49 timed out") (by decide) rfl

/-- Extracting the containers list from a poll success envelope. -/
theorem respContainers_pollSuccess (s : Json) (l : List Json) :
    respContainers (.ok (pollSuccess s l)) = l := rfl

/-- A resolved tracking-request body linking shipment `s1`. -/
def trSucc : Json :=
  trBody [("status", Json.str "succeeded")] (Json.obj [("id", Json.str "s1")])

/-- Oracle for which the linked shipment's fetch returns HTTP 500. -/
def netShipFail : Net :=
  { errNet with
    getTrackingRequest := fun _ => .ok ⟨200, trSucc⟩
    getShipment := fun _ => .ok ⟨500, dupBody⟩ }

/-- Container fetch statuses for the poll witnesses: `c1` resolves, `c2`
fails with 404. -/
def gsW : String → Nat := fun c => if c = "c1" then 200 else 404

/-- Container attribute sets for the poll witnesses (note: most named fields
absent; a pounds weight present). -/
def gaW : String → List (String × Json) :=
  fun c => [("number", Json.str c), ("weight_in_lbs", Json.num 25000)]

/-- A shipment body for the poll witnesses with container entries c1, c2. -/
def shipBodyW : Json :=
  shipBody "s1" [("status", Json.str "in_transit")]
    (["c1", "c2"].map (fun c => Json.obj [("id", Json.str c)]))

/-- Oracle realizing the resolved-poll witness scenario. -/
def netPollW : Net :=
  { errNet with
    getTrackingRequest := fun _ => .ok ⟨200, trSucc⟩
    getShipment := fun _ => .ok ⟨200, shipBodyW⟩
    getContainer := fun cid =>
      match cid with
      | .str c => .ok ⟨gsW c, contBody c (gaW c)⟩
      | _ => .error (.pyErr "unreachable") }

/-- Claim C6: when the tracking-request read reports status `pending`, the
poll returns success with `tracking_status="pending"` and the retry-advisory
message; the shipment and container oracles are arbitrary, so no shipment or
container fetch influences the result. -/
theorem claim_C6_pending_short_circuit (apiKey request_id : String) (net : Net)
    (bs ds as : List (String × Json))
    (hkey : apiKey ≠ "YOUR_API_KEY_HERE")
    (htr : net.getTrackingRequest request_id = .ok ⟨200, Json.obj bs⟩)
    (hd : jlookD bs "data" (Json.obj []) = Json.obj ds)
    (ha : jlookD ds "attributes" (Json.obj []) = Json.obj as)
    (hs : jlookD as "status" (Json.str "unknown") = Json.str "pending") :
    poll_tracking_request apiKey net request_id =
      .ok (Json.obj [("success", .bool true), ("tracking_status", .str "pending"),
        ("message", .str "Terminal49 is still fetching data. Poll again in 3-5 seconds.")]) := by
  unfold poll_tracking_request
  rw [if_neg hkey]
  unfold pollCore
  rw [htr, bind_ok]
  simp [getD_obj, bind_ok, pure_ok, hd, ha, hs]

/-- Witness for C6 on the pending oracle. -/
theorem claim_C6_witness :
    poll_tracking_request "k1" netPend "r1" =
      .ok (Json.obj [("success", .bool true), ("tracking_status", .str "pending"),
        ("message", .str "Terminal49 is still fetching data. Poll again in 3-5 seconds.")]) :=
  claim_C6_pending_short_circuit "k1" "r1" netPend
    [("data", Json.obj [("attributes", Json.obj [("status", Json.str "pending")])])]
    [("attributes", Json.obj [("status", Json.str "pending")])]
    [("status", Json.str "pending")]
    (by decide) rfl rfl rfl rfl

/-- Claim C7: when the linked shipment's fetch does not return HTTP 200, the
poll still succeeds with `tracking_status="succeeded"`, an all-null shipment
summary, no containers, and `containerCount=0`. -/
theorem claim_C7_shipment_fetch_failure_tolerated (apiKey request_id sid : String)
    (net : Net) (scode : Nat) (sbody : Json)
    (hkey : apiKey ≠ "YOUR_API_KEY_HERE") (hsid : sid ≠ "")
    (htr : net.getTrackingRequest request_id =
      .ok ⟨200, trBody [("status", .str "succeeded")] (Json.obj [("id", Json.str sid)])⟩)
    (hship : net.getShipment (Json.str sid) = .ok ⟨scode, sbody⟩)
    (hne : scode ≠ 200) :
    poll_tracking_request apiKey net request_id =
      .ok (pollSuccess (Json.obj [("id", Json.null), ("bol_number", Json.null),
        ("shipping_line", Json.null), ("scac", Json.null), ("vessel", Json.null),
        ("voyage", Json.null), ("pol_name", Json.null), ("pol_locode", Json.null),
        ("pod_name", Json.null), ("pod_locode", Json.null), ("destination", Json.null),
        ("pol_etd", Json.null), ("pol_atd", Json.null), ("pod_eta", Json.null),
        ("pod_ata", Json.null), ("status", Json.null)]) []) := by
  unfold poll_tracking_request
  rw [if_neg hkey]
  unfold pollCore
  rw [htr, bind_ok]
  simp [trBody, Json.get, Json.getD, Json.truthy, jlookD, bind_ok, pure_ok,
    hship, hne, hsid, List.lookup, pyIter, fetchContainers, pollSuccess]

/-- Witness for C7: shipment fetch returns 500. -/
theorem claim_C7_witness :
    poll_tracking_request "k1" netShipFail "r1" =
      .ok (pollSuccess (Json.obj [("id", Json.null), ("bol_number", Json.null),
        ("shipping_line", Json.null), ("scac", Json.null), ("vessel", Json.null),
        ("voyage", Json.null), ("pol_name", Json.null), ("pol_locode", Json.null),
        ("pod_name", Json.null), ("pod_locode", Json.null), ("destination", Json.null),
        ("pol_etd", Json.null), ("pol_atd", Json.null), ("pod_eta", Json.null),
        ("pod_ata", Json.null), ("status", Json.null)]) []) :=
  claim_C7_shipment_fetch_failure_tolerated "k1" "r1" "s1" netShipFail 500 dupBody
    (by decide) (by decide) rfl rfl (by decide)

/-- Claim C1: in the resolved-poll scenario, each container relationship
entry with a present (non-blank) id is looked up; the returned containers
are exactly those whose fetch returned HTTP 200 (others are silently
dropped), in order, and `containerCount` is the length of that list (built
into `pollSuccess`). -/
theorem claim_C1_poll_container_filter (apiKey request_id sid : String) (net : Net)
    (sattrs : List (String × Json)) (cids : List String)
    (gs : String → Nat) (ga : String → List (String × Json))
    (hkey : apiKey ≠ "YOUR_API_KEY_HERE") (hsid : sid ≠ "")
    (htr : net.getTrackingRequest request_id =
      .ok ⟨200, trBody [("status", .str "succeeded")] (Json.obj [("id", Json.str sid)])⟩)
    (hship : net.getShipment (Json.str sid) =
      .ok ⟨200, shipBody sid sattrs (cids.map (fun c => Json.obj [("id", Json.str c)]))⟩)
    (hc : ∀ c ∈ cids, c ≠ "" →
      net.getContainer (Json.str c) = .ok ⟨gs c, contBody c (ga c)⟩) :
    poll_tracking_request apiKey net request_id =
      .ok (pollSuccess (expectedSummary sid sattrs)
        ((cids.filter (fun c => !(c == "") && (gs c == 200))).map
          (fun c => expectedRecord c (ga c)))) :=
  poll_scenario apiKey request_id sid net sattrs cids gs ga hkey hsid htr hship hc

/-- Witness for C1: containers c1 (fetch 200) and c2 (fetch 404) — only c1
is returned, and the count is 1. -/
theorem claim_C1_witness :
    poll_tracking_request "k1" netPollW "r1" =
      .ok (pollSuccess (expectedSummary "s1" [("status", Json.str "in_transit")])
        [expectedRecord "c1" (gaW "c1")]) :=
  claim_C1_poll_container_filter "k1" "r1" "s1" netPollW [("status", Json.str "in_transit")]
    ["c1", "c2"] gsW gaW (by decide) (by decide) rfl rfl
    (fun c hc hne => by fin_cases hc <;> rfl)

/-- Claim C9: every container record returned by the poll carries, under its
`raw` field, the complete upstream attribute object of that container,
whatever attributes (including none of the named ones) it has. -/
theorem claim_C9_raw_preserved (apiKey request_id sid : String) (net : Net)
    (sattrs : List (String × Json)) (cids : List String)
    (gs : String → Nat) (ga : String → List (String × Json))
    (hkey : apiKey ≠ "YOUR_API_KEY_HERE") (hsid : sid ≠ "")
    (htr : net.getTrackingRequest request_id =
      .ok ⟨200, trBody [("status", .str "succeeded")] (Json.obj [("id", Json.str sid)])⟩)
    (hship : net.getShipment (Json.str sid) =
      .ok ⟨200, shipBody sid sattrs (cids.map (fun c => Json.obj [("id", Json.str c)]))⟩)
    (hc : ∀ c ∈ cids, c ≠ "" →
      net.getContainer (Json.str c) = .ok ⟨gs c, contBody c (ga c)⟩) :
    ∀ r ∈ respContainers (poll_tracking_request apiKey net request_id),
      ∃ c ∈ cids, gs c = 200 ∧ r.lookup? "raw" = some (Json.obj (ga c)) := by
  intro r hr
  rw [poll_scenario apiKey request_id sid net sattrs cids gs ga hkey hsid htr hship hc,
    respContainers_pollSuccess, List.mem_map] at hr
  obtain ⟨c, hcf, rfl⟩ := hr
  rw [List.mem_filter] at hcf
  obtain ⟨hmem, hp⟩ := hcf
  simp only [Bool.and_eq_true, bne_iff_ne, ne_eq, beq_iff_eq] at hp
  exact ⟨c, hmem, hp.2, rfl⟩

/-- Witness for C9 at container c1, whose attribute set lacks most named
fields. -/
theorem claim_C9_witness :
    ∃ c ∈ ["c1", "c2"], gsW c = 200 ∧
      (expectedRecord "c1" (gaW "c1")).lookup? "raw" = some (Json.obj (gaW c)) :=
  claim_C9_raw_preserved "k1" "r1" "s1" netPollW [("status", Json.str "in_transit")]
    ["c1", "c2"] gsW gaW (by decide) (by decide) rfl rfl
    (fun c hc hne => by fin_cases hc <;> rfl)
    (expectedRecord "c1" (gaW "c1")) (List.Mem.head _)

/-- Claim C10: every container record returned by the poll carries, under
`weight_kg`, the upstream `weight_in_lbs` attribute verbatim (null when
absent) — no unit conversion. -/
theorem claim_C10_weight_lbs_passthrough (apiKey request_id sid : String) (net : Net)
    (sattrs : List (String × Json)) (cids : List String)
    (gs : String → Nat) (ga : String → List (String × Json))
    (hkey : apiKey ≠ "YOUR_API_KEY_HERE") (hsid : sid ≠ "")
    (htr : net.getTrackingRequest request_id =
      .ok ⟨200, trBody [("status", .str "succeeded")] (Json.obj [("id", Json.str sid)])⟩)
    (hship : net.getShipment (Json.str sid) =
      .ok ⟨200, shipBody sid sattrs (cids.map (fun c => Json.obj [("id", Json.str c)]))⟩)
    (hc : ∀ c ∈ cids, c ≠ "" →
      net.getContainer (Json.str c) = .ok ⟨gs c, contBody c (ga c)⟩) :
    ∀ r ∈ respContainers (poll_tracking_request apiKey net request_id),
      ∃ c ∈ cids, gs c = 200 ∧
        r.lookup? "weight_kg" = some (jlookD (ga c) "weight_in_lbs" Json.null) := by
  intro r hr
  rw [poll_scenario apiKey request_id sid net sattrs cids gs ga hkey hsid htr hship hc,
    respContainers_pollSuccess, List.mem_map] at hr
  obtain ⟨c, hcf, rfl⟩ := hr
  rw [List.mem_filter] at hcf
  obtain ⟨hmem, hp⟩ := hcf
  simp only [Bool.and_eq_true, bne_iff_ne, ne_eq, beq_iff_eq] at hp
  exact ⟨c, hmem, hp.2, rfl⟩

/-- Witness for C10 at container c1, whose upstream attributes carry
`weight_in_lbs = 25000`; the record's `weight_kg` holds that same number. -/
theorem claim_C10_witness :
    ∃ c ∈ ["c1", "c2"], gsW c = 200 ∧
      (expectedRecord "c1" (gaW "c1")).lookup? "weight_kg" =
        some (jlookD (gaW c) "weight_in_lbs" Json.null) :=
  claim_C10_weight_lbs_passthrough "k1" "r1" "s1" netPollW
    [("status", Json.str "in_transit")]
    ["c1", "c2"] gsW gaW (by decide) (by decide) rfl rfl
    (fun c hc hne => by fin_cases hc <;> rfl)
    (expectedRecord "c1" (gaW "c1")) (List.Mem.head _)

end TireTrade
